import Mathlib

/-!
Verification development for the camera core of the photobooth server
(device manager, stream supervisor, capture pipeline).

Each JavaScript module that the checked properties depend on is shallowly
embedded as executable Lean definitions.  External effects (filesystem
probes, `v4l2-ctl` introspection runs, `ffmpeg` subprocess outcomes,
wall-clock timestamps) are supplied through explicit environment records,
so every function of the source becomes a total function of its
environment.  JavaScript `null`/`undefined` strings are modelled as the
empty string or as `Option`, and exceptions as `Except` values where a
function of the source can reject.

Machine numbers: all timestamps and counters in the source stay far below
2^53, and no arithmetic overflow is reachable, so they are modelled as
`Nat`/`Int` directly.  `Nat` subtraction `now - t` agrees with the
JavaScript comparison `now - t < c` for the monotone clocks used here
(a negative JavaScript difference and a truncated-to-zero `Nat`
difference both satisfy `< c`).
-/

namespace Photobooth

/-- Boolean prefix test on character lists (helper for substring search). -/
def hasPrefixL : List Char → List Char → Bool
  | [], _ => true
  | _ :: _, [] => false
  | a :: as, b :: bs => a == b && hasPrefixL as bs

/-- Boolean test that `needle` occurs contiguously inside the list. -/
def hasRunL (needle : List Char) : List Char → Bool
  | [] => hasPrefixL needle []
  | c :: cs => hasPrefixL needle (c :: cs) || hasRunL needle cs

/-- JavaScript `hay.includes(needle)` (case-sensitive substring test). -/
def strContains (hay needle : String) : Bool :=
  hasRunL needle.toList hay.toList

/-! ## Capture request admission guard

Embedding of `src/server/controllers/camera/capture-controller.js`
(lines 14–54): the module-level trackers `activeCaptureOperations` and
`lastCaptureAttempt` and the two admission checks at the top of
`exports.capturePhoto`.  A request that passes both checks increments the
active counter, records its timestamp and proceeds to launch the capture
chain; the response-finished callback decrements the counter with
`Math.max(0, · - 1)`, which is exactly `Nat` truncated subtraction. -/

/-- `MAX_CAPTURE_OPERATIONS` from capture-controller.js. -/
def MAX_CAPTURE_OPERATIONS : Nat := 1

/-- `CAPTURE_COOLDOWN_MS` from capture-controller.js. -/
def CAPTURE_COOLDOWN_MS : Nat := 5000

/-- The two module-level trackers of capture-controller.js. -/
structure CapCtrl where
  active : Nat
  lastAttempt : Nat
  deriving DecidableEq, Repr

/-- Outcome of the admission checks: both rejections are HTTP 429
("please retry") responses; `accepted` means the capture chain is run. -/
inductive CapResp
  | rejectedBusy
  | rejectedCooldown
  | accepted
  deriving DecidableEq, Repr

/-- The admission prologue of `exports.capturePhoto`
(capture-controller.js lines 22–44). -/
def capRequest (s : CapCtrl) (now : Nat) : CapCtrl × CapResp :=
  if MAX_CAPTURE_OPERATIONS ≤ s.active then
    (s, .rejectedBusy)
  else if now - s.lastAttempt < CAPTURE_COOLDOWN_MS then
    (s, .rejectedCooldown)
  else
    ({ active := s.active + 1, lastAttempt := now }, .accepted)

/-- The `cleanupCapture` handler (capture-controller.js lines 47–50):
`activeCaptureOperations = Math.max(0, activeCaptureOperations - 1)`. -/
def capComplete (s : CapCtrl) : CapCtrl :=
  { s with active := s.active - 1 }

/-- A timed event against the capture controller: an incoming request, or
the completion (response finished) of the running capture. -/
inductive CapEv
  | request (now : Nat)
  | complete (now : Nat)
  deriving DecidableEq, Repr

/-- One event step; requests are logged together with their arrival time
and response. -/
def capStep : CapCtrl × List (Nat × CapResp) → CapEv → CapCtrl × List (Nat × CapResp)
  | (s, log), .request now =>
      let r := capRequest s now
      (r.1, log ++ [(now, r.2)])
  | (s, log), .complete _ => (capComplete s, log)

/-- Run a trace of capture-controller events from the initial module state
(`activeCaptureOperations = 0`, `lastCaptureAttempt = 0`). -/
def capRun (evs : List CapEv) : CapCtrl × List (Nat × CapResp) :=
  evs.foldl capStep (⟨0, 0⟩, [])

/-! ## Restart admission guard

Embedding of `src/server/controllers/camera.controller.js`
(module `camera/index.js`, lines 112–117 and 386–455): the
`restartInProgress` flag, the `recentRestarts` timestamp list, and the
admission prologue of `exports.restartCameraServices`.  The background
restart procedure clears `restartInProgress` in its `finally` block,
modelled by `restartComplete`. -/

/-- `RESTART_COOLDOWN_PERIOD` from camera.controller.js. -/
def RESTART_COOLDOWN_PERIOD : Nat := 10000

/-- `MAX_RECENT_RESTARTS` from camera.controller.js. -/
def MAX_RECENT_RESTARTS : Nat := 3

/-- Module-level restart guard state of camera.controller.js. -/
structure RestartCtrl where
  inProgress : Bool
  recent : List Nat
  deriving DecidableEq, Repr

/-- Outcome of a restart request: both rejections are HTTP 429 responses;
`accepted` means `processRestartInBackground` is started. -/
inductive RestartResp
  | rejectedInProgress
  | rejectedTooMany
  | accepted
  deriving DecidableEq, Repr

/-- The admission prologue of `exports.restartCameraServices`
(camera.controller.js lines 388–413). -/
def restartRequest (s : RestartCtrl) (now : Nat) : RestartCtrl × RestartResp :=
  if s.inProgress then
    (s, .rejectedInProgress)
  else
    let recent2 := s.recent.filter (fun t => now - t < RESTART_COOLDOWN_PERIOD)
    if MAX_RECENT_RESTARTS ≤ recent2.length then
      ({ s with recent := recent2 }, .rejectedTooMany)
    else
      ({ inProgress := true, recent := recent2 ++ [now] }, .accepted)

/-- The `finally` block of `processRestartInBackground`
(camera.controller.js lines 298–302). -/
def restartComplete (s : RestartCtrl) : RestartCtrl :=
  { s with inProgress := false }

/-- A timed event against the restart controller. -/
inductive RestartEv
  | request (now : Nat)
  | complete
  deriving DecidableEq, Repr

/-- One restart-controller event step, logging request responses. -/
def restartStep : RestartCtrl × List RestartResp → RestartEv → RestartCtrl × List RestartResp
  | (s, log), .request now =>
      let r := restartRequest s now
      (r.1, log ++ [r.2])
  | (s, log), .complete => (restartComplete s, log)

/-- Run a trace of restart-controller events from the initial module state
(`restartInProgress = false`, `recentRestarts = []`). -/
def restartRun (evs : List RestartEv) : RestartCtrl × List RestartResp :=
  evs.foldl restartStep (⟨false, []⟩, [])

/-! ## Stream supervisor

Embedding of `src/server/services/camera/camera-stream.service.js`
(class `CameraStreamService`) together with the stream setup modules it
calls (`stream/mjpeg-stream.js`, `stream/r6-stream.js`, and the Canon 5D
streaming module `5d-stream.js`, whose source is the second document of
`image-processing.service.js`, exporting `createMjpegStream`).
Subprocesses are identified by fresh numeric pids; `live` records the
pids of spawned long-lived stream subprocesses that have not been sent a
termination signal, and `mjpegProcess`/`mjpegUrl` are the two instance
fields of the service.  The JavaScript value recorded in `mjpegProcess`
is either a child-process object (R6 and standard setups) or — in the 5D
branch — the pending `Promise` returned by the `async`
`createMjpegStream`, which the service assigns directly (line 110);
`Handle` distinguishes the two, since only a child process has the
`kill` method that `stopStream` requires.  Whether a given setup module
manages to spawn its `ffmpeg` subprocess is supplied by the environment
(`StartEnv`); an R6/standard setup that fails spawns nothing and yields
null fields, exactly as the `catch` blocks of those modules resolve to
`{ mjpegProcess: null, mjpegUrl: null }`. -/

/-- The JavaScript value the service can hold in `this.mjpegProcess`: a
spawned child process (which has a `kill` method), or the Promise
returned by the `async` 5D setup (which has none). -/
inductive Handle
  | proc (pid : Nat)
  | promise
  deriving DecidableEq, Repr

/-- State of the `CameraStreamService` singleton plus the pid supply and
the set of live (spawned, not yet signalled) stream subprocesses. -/
structure StreamSvc where
  mjpegProcess : Option Handle
  mjpegUrl : Option String
  nextPid : Nat
  live : List Nat
  deriving DecidableEq, Repr

/-- The constructor state of `CameraStreamService`. -/
def StreamSvc.init : StreamSvc := ⟨none, none, 0, []⟩

/-- Spawn a fresh subprocess: returns the new state and the new pid. -/
def StreamSvc.spawn (s : StreamSvc) : StreamSvc × Nat :=
  ({ s with nextPid := s.nextPid + 1, live := s.live ++ [s.nextPid] }, s.nextPid)

/-- Spawn the `ffmpeg` subprocess of an R6/standard stream setup module
and record the child process and the client URL in the service fields
(the `spawn` call of the setup module followed by the assignments to
`this.mjpegProcess` / `this.mjpegUrl`). -/
def spawnRecord (s : StreamSvc) : StreamSvc × Nat :=
  let r := s.spawn
  ({ r.1 with mjpegProcess := some (Handle.proc r.2),
              mjpegUrl := some "/api/camera/mjpeg-stream" }, r.2)

/-- The 5D branch of `startStream` (camera-stream.service.js lines
105–131 together with `createMjpegStream` of 5d-stream.js lines
477–664): `createMjpegStream` is `async`, so the service records its
still-pending Promise in `this.mjpegProcess` (line 110) and sets the
URL; `setupErrorHandling(this.mjpegProcess)` then throws a TypeError
(a Promise has no `stderr` field), the `catch` at line 117 sees the
truthy recorded Promise in its `if (!this.mjpegProcess)` guard, and the
standard fallback therefore never runs.  The async body, collapsed into
this step, spawns the long-lived 5D stream subprocess when it does not
throw before its `spawn` call (`spawned`); that subprocess is reachable
only through the Promise, never through a recorded child process.
(The 5D module additionally re-spawns short-lived one-frame preview
processes on an interval; these self-terminate and are not tracked.) -/
def record5D (s : StreamSvc) (spawned : Bool) : StreamSvc :=
  let s1 := if spawned then s.spawn.1 else s
  { s1 with mjpegProcess := some Handle.promise,
            mjpegUrl := some "/api/camera/mjpeg-stream" }

/-- The cleanup shared by `stopStream` and the watchdog's `onStreamEnd`
path: a recorded child process is signalled (`if (this.mjpegProcess.kill)`
succeeds, camera-stream.service.js line 163) and leaves the live set; a
recorded Promise has no `kill` method, so the signalling block is
skipped and the subprocess behind it stays live; the two service fields
are always cleared afterwards. -/
def killRecorded (s : StreamSvc) : StreamSvc :=
  { s with mjpegProcess := none, mjpegUrl := none,
           live := (match s.mjpegProcess with
             | some (Handle.proc p) => s.live.erase p
             | _ => s.live) }

/-- Environment of one `startStream` call: whether each stream setup
module succeeds in launching its subprocess. -/
structure StartEnv where
  r6Ok : Bool
  fiveDOk : Bool
  stdOk : Bool
  deriving DecidableEq, Repr

/-- The `isR6` test of camera-stream.service.js lines 55–59 (identical to
`isCanonR6` in camera-capture.service.js lines 36–39). -/
def isCanonR6Check (cameraType cameraModel devicePath : String) : Bool :=
  cameraModel != "" &&
    (strContains cameraModel "R6 Mark II" || strContains cameraModel "R6" ||
      (cameraType == "canon" && strContains devicePath "/dev/video1"))

/-- The `is5D` test of camera-stream.service.js lines 62–66. -/
def is5DStreamCheck (cameraModel : String) : Bool :=
  cameraModel != "" &&
    (strContains cameraModel "5D Mark IV" || strContains cameraModel "5D" ||
      strContains cameraModel "EOS 5D")

/-- `CameraStreamService.startStream` (camera-stream.service.js lines
34–155).  Branches: already-running no-op (lines 37–43, taken for any
truthy recorded value, child process or Promise alike); no device
(lines 46–52); specialized R6 setup, whose promise callback records the
spawned child process only on success while the method itself returns
the still empty fields (lines 79–104 and 144–147, the event-loop turn of
the callback is collapsed into this step); specialized 5D setup (lines
105–131, see `record5D`): the Promise of the `async` `createMjpegStream`
is recorded unconditionally and returned, the background body spawns the
stream subprocess when `fiveDOk`, and the standard fallback in the
`catch` is dead because the truthy Promise is already recorded; standard
MJPEG setup (lines 132–142) via `setupMjpegStream`, whose `catch` yields
null fields without a subprocess. -/
def startStream (env : StartEnv) (devicePath cameraType cameraModel : String)
    (s : StreamSvc) : StreamSvc × (Option Handle × Option String) :=
  match s.mjpegProcess with
  | some p => (s, (some p, s.mjpegUrl))
  | none =>
    if devicePath == "" then (s, (none, none))
    else
      if isCanonR6Check cameraType cameraModel devicePath then
        if env.r6Ok then
          ((spawnRecord s).1, (none, none))
        else (s, (none, none))
      else if is5DStreamCheck cameraModel then
        (record5D s env.fiveDOk,
         (some Handle.promise, some "/api/camera/mjpeg-stream"))
      else
        if env.stdOk then
          let r := spawnRecord s
          (r.1, (some (Handle.proc r.2), some "/api/camera/mjpeg-stream"))
        else ({ s with mjpegProcess := none, mjpegUrl := none }, (none, none))

/-- `CameraStreamService.stopStream` (camera-stream.service.js lines
160–205): sends SIGTERM to the recorded subprocess — but only behind the
`if (this.mjpegProcess.kill)` guard (line 163), which a recorded Promise
does not pass — then unconditionally clears both instance fields. -/
def stopStream (s : StreamSvc) : StreamSvc :=
  killRecorded s

/-- A call against the stream supervisor. -/
inductive StreamOp
  | start (env : StartEnv) (devicePath cameraType cameraModel : String)
  | stop

/-- Execute one supervisor call (return values discarded). -/
def streamStep (s : StreamSvc) : StreamOp → StreamSvc
  | .start env dp ct cm => (startStream env dp ct cm s).1
  | .stop => stopStream s

/-- Run a sequence of supervisor calls from the constructor state. -/
def runStreamOps (ops : List StreamOp) : StreamSvc :=
  ops.foldl streamStep StreamSvc.init

/-- Supervisor invariant for runs that never route a start through the
5D branch: the recorded handle is a child process matching exactly the
set of live subprocesses — one live subprocess when a process handle is
recorded, none otherwise, and never a recorded Promise. -/
def StreamInv (s : StreamSvc) : Prop :=
  match s.mjpegProcess with
  | some (Handle.proc p) => s.live = [p]
  | some Handle.promise => False
  | none => s.live = []

/-- Whether a supervisor call would route through the specialized 5D
stream setup if it starts a stream (non-empty device, model not matching
the R6 test, model matching the 5D test). -/
def opTakes5D : StreamOp → Bool
  | StreamOp.start _ dp ct cm =>
      !(dp == "") && !isCanonR6Check ct cm dp && is5DStreamCheck cm
  | StreamOp.stop => false

/-- ### Watchdog (stream/r6-stream.js error-handler, lines 277–337)

The stderr data handler installed by `setupStreamErrorHandling`: its
`onStreamEnd` callback is the closure of camera-stream.service.js lines
71–77, which nulls both instance fields.  The returned Boolean reports
whether a SIGTERM was sent to the subprocess in this handler run. -/
def onStderrChunk (s : StreamSvc) (chunk : String) : StreamSvc × Bool :=
  if strContains chunk "No such device" || strContains chunk "Device or resource busy" then
    (killRecorded s, true)
  else if strContains chunk "Not a video capture device" then
    (killRecorded s, true)
  else (s, false)

/-! ## Standard V4L2 capture method

Embedding of `src/server/services/camera/capture/v4l2-capture.js`
(`captureV4L2Photo`).  The external world of one invocation — the
`v4l2-ctl --info` introspection results, device-node existence, the
`/dev` directory listing, and the outcome of the `ffmpeg` capture
subprocess — is an explicit environment.  An introspection run that ends
in an exec error is modelled by `none` (its callback then sees a falsy
`stdout`, so every `stdout && stdout.includes(...)` test is false).
`ffmpeg` is spawned with fixed, well-typed string arguments, so Node's
`spawn` does not throw synchronously: launch failures surface as the
`error` event, exits as the `close` event, exactly the two outcomes
modelled. -/

/-- `close` carries the subprocess exit code; `errEvent` is the `error`
event (the subprocess failed to launch). -/
inductive FfmpegOutcome
  | close (code : Int)
  | errEvent
  deriving DecidableEq, Repr

/-- Environment of one standard-capture invocation. -/
structure V4l2Env where
  info : String → Option String
  devExists : String → Bool
  devDir : List String
  outcome : FfmpegOutcome
  wroteOnClose : Bool

/-- `!error && stdout && stdout.includes(marker)` for one introspection
run. -/
def infoHas (env : V4l2Env) (dev marker : String) : Bool :=
  match env.info dev with
  | some out => strContains out marker
  | none => false

/-- First-occurrence replacement over character lists: JavaScript
`String.prototype.replace` with a plain-string pattern. -/
def replaceFirstL (pat rep : List Char) : List Char → List Char
  | [] => if hasPrefixL pat [] then rep else []
  | c :: cs =>
    if hasPrefixL pat (c :: cs) then rep ++ (c :: cs).drop pat.length
    else c :: replaceFirstL pat rep cs

/-- JavaScript `s.replace(pat, rep)` (first occurrence only). -/
def replaceFirst (s pat rep : String) : String :=
  String.mk (replaceFirstL pat.toList rep.toList s.toList)

/-- JavaScript `parseInt` restricted to the shapes produced here
(optional sign followed by decimal digits; no leading whitespace occurs
in the source's inputs); `none` models `NaN`. -/
def jsParseInt (s : String) : Option Int :=
  let core : List Char → Int → Option Int := fun rest sign =>
    let ds := rest.takeWhile (fun c => c.isDigit)
    if ds.isEmpty then none
    else some (sign * (ds.foldl (fun a c => a * 10 + (c.toNat - '0'.toNat)) 0 : Nat))
  match s.toList with
  | '-' :: t => core t (-1)
  | '+' :: t => core t 1
  | t => core t 1

/-- JavaScript number-to-string coercion of a `parseInt` result inside a
template literal (`NaN` prints as `"NaN"`). -/
def jsIntStr : Option Int → String
  | some n => toString n
  | none => "NaN"

/-- The device scan of v4l2-capture.js lines 61–83: walk the `/dev`
entries, skip the current candidate, take the first entry whose
introspection output contains `"Video Capture"`. -/
def firstCaptureDevice (env : V4l2Env) (skip : String) : List String → Option String
  | [] => none
  | d :: ds =>
    let p := "/dev/" ++ d
    if p == skip then firstCaptureDevice env skip ds
    else if infoHas env p "Video Capture" then some p
    else firstCaptureDevice env skip ds

/-- The capture-device substitution of v4l2-capture.js lines 22–87: if
the bound device introspects as a Video Output node, try the
sequentially-next device number, then scan all `/dev/video*` entries for
a Video Capture node; otherwise (or if nothing better is found) keep the
bound device. -/
def selectCaptureDevice (env : V4l2Env) (devicePath : String) : String :=
  if infoHas env devicePath "Video Output" then
    let next := "/dev/video" ++
      jsIntStr ((jsParseInt (replaceFirst devicePath "/dev/video" "")).map (· + 1))
    let cand := if env.devExists next && infoHas env next "Video Capture" then next
      else devicePath
    if cand == devicePath then
      match firstCaptureDevice env devicePath
          (env.devDir.filter (fun d => d.startsWith "video")) with
      | some p => p
      | none => devicePath
    else cand
  else devicePath

/-- Observable actions of one standard-capture invocation, in order. -/
inductive CaptureEvent
  | stopPreview
  | settleDelay (ms : Nat)
  | spawnCapture (device : String)
  | restartPreview (device cameraType cameraModel : String)
  deriving DecidableEq, Repr

/-- Result of one standard-capture invocation: the ordered action trace,
the settled promise (`Except.error` models a rejection), and whether a
file now exists at the output path. -/
structure CaptureRun where
  events : List CaptureEvent
  result : Except String Bool
  wrote : Bool
  deriving Repr

/-- `captureV4L2Photo(localPath, devicePath, streamer)` of
v4l2-capture.js lines 15–160.  A falsy `devicePath` rejects before any
action (lines 17–20).  Otherwise the preview stream is stopped (line 95,
only when a streamer was passed), a 500 ms settle delay awaited (line
99), `ffmpeg` spawned against the substituted device (line 112), and on
both the `close` handler (lines 120–137) and the `error` handler (lines
139–148) the preview stream is restarted with
`startStream(captureDevice, 'canon', 'Canon Camera')` before the promise
resolves with the exit-code test (non-zero exit and launch failure both
resolve `false`; `streamer.startStream` never throws — its whole body is
wrapped in a `try` that returns null fields — so the `reject` inside the
`close` handler's `catch` is unreachable). -/
def captureV4L2Photo (env : V4l2Env) (devicePath : String) (hasStreamer : Bool) : CaptureRun :=
  if devicePath == "" then
    { events := [], result := Except.error "No v4l2 device available for capture",
      wrote := false }
  else
    let cd := selectCaptureDevice env devicePath
    let pre := (if hasStreamer then [CaptureEvent.stopPreview] else []) ++
      [CaptureEvent.settleDelay 500, CaptureEvent.spawnCapture cd]
    let post := if hasStreamer then [CaptureEvent.restartPreview cd "canon" "Canon Camera"]
      else []
    match env.outcome with
    | FfmpegOutcome.close code =>
        { events := pre ++ post, result := Except.ok (code == 0), wrote := env.wroteOnClose }
    | FfmpegOutcome.errEvent =>
        { events := pre ++ post, result := Except.ok false, wrote := false }

/-- The restart-stream calls occurring in an action trace, with their
`(device, cameraType, cameraModel)` arguments. -/
def restartCalls : List CaptureEvent → List (String × String × String)
  | [] => []
  | CaptureEvent.restartPreview d t m :: es => (d, t, m) :: restartCalls es
  | _ :: es => restartCalls es

/-- Whether the capture subprocess outcome counts as a failure (non-zero
exit or launch failure). -/
def v4l2Failed (env : V4l2Env) : Bool :=
  match env.outcome with
  | FfmpegOutcome.close code => !(code == 0)
  | FfmpegOutcome.errEvent => true

/-! ## Capture fallback chain

Embedding of `src/server/services/camera/camera-capture.service.js`
(`CameraCaptureService.capturePhoto`, lines 28–99).  The specialized R6
and 5D methods scan the device namespace themselves and either resolve a
Boolean or reject; both are wrapped in their own `try`/`catch` in the
service, so a rejection only falls through to the next method.  The
fallback method's promise only ever resolves (all its `ffmpeg` handlers
`resolve`), so it is modelled by its resolved Boolean and file effect.
The output path is fresh (timestamp + uuid4 filename in the service's
own temp directory), so no file exists there before the chain runs, and
filesystem writes are assumed to function (a method that "wrote" leaves
a file at the output path; the mock copy succeeds when the placeholder
asset exists). -/

/-- Settled outcome of one capture method's promise. -/
inductive MethodOut
  | ok
  | fail
  | thrown
  deriving DecidableEq, Repr

/-- One specialized capture method run: its settled outcome and whether
it left a file at the output path (a non-zero-exit `ffmpeg` run may have
written a partial file). -/
structure SpecialRun where
  out : MethodOut
  wrote : Bool
  deriving DecidableEq, Repr

/-- Environment of one `capturePhoto` call on the capture service. -/
structure ChainEnv where
  cwd : String
  timestampRaw : String
  uuid : String
  cameraType : String
  cameraModel : String
  devicePath : String
  r6run : SpecialRun
  mk5run : SpecialRun
  v4l2 : V4l2Env
  fbSucc : Bool
  fbWrote : Bool
  mockExists : Bool

/-- `new Date().toISOString().replace(/[:.]/g, '-')`
(camera-capture.service.js line 30). -/
def sanitizeStamp (s : String) : String :=
  String.mk (s.toList.map (fun c => if c == ':' || c == '.' then '-' else c))

/-- The generated capture filename (camera-capture.service.js line 32). -/
def chainFilename (env : ChainEnv) : String :=
  sanitizeStamp env.timestampRaw ++ "_" ++ env.uuid ++ ".jpg"

/-- The computed output path (camera-capture.service.js lines 12, 33). -/
def chainLocalPath (env : ChainEnv) : String :=
  env.cwd ++ "/temp_captures/" ++ chainFilename env

/-- The `isCanon5D` test of camera-capture.service.js lines 42–45. -/
def isCanon5DCaptureCheck (cameraModel : String) : Bool :=
  cameraModel != "" &&
    (strContains cameraModel "5D Mark IV" || strContains cameraModel "EOS 5D" ||
      strContains cameraModel "5D")

/-- Result returned by the capture service (lines 87–91 and 94–97). -/
inductive CaptureResult
  | success (path filename : String)
  | failure
  deriving DecidableEq, Repr

/-- Chain outcome: the returned result and whether a file exists at the
computed output path once the chain has run. -/
structure ChainOut where
  result : CaptureResult
  fileExists : Bool
  deriving DecidableEq, Repr

/-- The final file-existence check of the service (lines 82–98): a file
at the output path yields the success result carrying that path,
otherwise the thrown error is caught and a failure result returned. -/
def chainFinish (env : ChainEnv) (fileExists : Bool) : ChainOut :=
  if fileExists then
    { result := CaptureResult.success (chainLocalPath env) (chainFilename env),
      fileExists := fileExists }
  else { result := CaptureResult.failure, fileExists := fileExists }

/-- `CameraCaptureService.capturePhoto` (lines 28–99): the specialized
method (R6 or 5D, individually `try`/`catch`-wrapped) runs first when the
model matches, then — while no method has reported success — the standard
method, the fallback method, and the mock copy, followed by the
file-existence check.  A rejection of the standard method escapes to the
outer `catch` and yields the failure result directly. -/
def capturePhotoChain (env : ChainEnv) : ChainOut :=
  let isR6 := isCanonR6Check env.cameraType env.cameraModel env.devicePath
  let is5D := isCanon5DCaptureCheck env.cameraModel
  let spec : Bool × Bool :=
    if isR6 then (env.r6run.out == MethodOut.ok, env.r6run.wrote)
    else if is5D then (env.mk5run.out == MethodOut.ok, env.mk5run.wrote)
    else (false, false)
  if spec.1 then chainFinish env spec.2
  else
    let v := captureV4L2Photo env.v4l2 env.devicePath true
    match v.result with
    | Except.error _ => { result := CaptureResult.failure, fileExists := spec.2 }
    | Except.ok b =>
      let file2 := spec.2 || v.wrote
      if b then chainFinish env file2
      else
        let file3 := file2 || env.fbWrote
        if env.fbSucc then chainFinish env file3
        else if env.mockExists then chainFinish env true
        else chainFinish env file3

/-! ## Camera service facade: reconnection polling

Embedding of `src/server/services/camera/index.js` (`CameraService`):
the identity fields, `checkCameraAvailability` (lines 152–170, driven by
the detection service's result), `startCameraStream`/`stopCameraStream`
(lines 175–211, recorded as observable actions against the stream
supervisor), and `checkCameraReconnection` (lines 100–147). -/

/-- The identity fields of the `CameraService` singleton. -/
structure CamFacade where
  connected : Bool
  camType : Option String
  camModel : Option String
  dev : Option String
  deriving DecidableEq, Repr

/-- The constructor state of `CameraService` (lines 26–29). -/
def CamFacade.init : CamFacade := ⟨false, none, none, none⟩

/-- A successful detection result (`detector.detectCamera`). -/
structure Detection where
  device : String
  typ : String
  model : String
  deriving DecidableEq, Repr

/-- Observable calls of the facade against the stream supervisor. -/
inductive FacadeEv
  | stopEv
  | startEv (device : String) (camType camModel : Option String)
  deriving DecidableEq, Repr

/-- `checkCameraAvailability` (lines 152–170): on a detection the
identity fields are updated from the result; on no detection nothing is
touched. -/
def checkCameraAvailability (s : CamFacade) (det : Option Detection) : CamFacade × Bool :=
  match det with
  | some d =>
      ({ s with dev := some d.device, camType := some d.typ, camModel := some d.model }, true)
  | none => (s, false)

/-- `startCameraStream` (lines 175–193): a no-op without a bound device,
otherwise one `startStream` call with the currently bound identity. -/
def startCameraStreamEv (s : CamFacade) : List FacadeEv :=
  match s.dev with
  | none => []
  | some d => [FacadeEv.startEv d s.camType s.camModel]

/-- `checkCameraReconnection` (lines 100–147): compare the previous
connection state against fresh detection and stop/start the stream on
the three observed transitions. -/
def checkCameraReconnection (s : CamFacade) (det : Option Detection) :
    CamFacade × List FacadeEv :=
  let prev := s
  let r := checkCameraAvailability s det
  let s1 := r.1
  let avail := r.2
  if !prev.connected && avail then
    ({ s1 with connected := true }, startCameraStreamEv s1)
  else if prev.connected && !avail then
    ({ s1 with connected := false }, [FacadeEv.stopEv])
  else if prev.connected && avail &&
      (prev.dev != s1.dev || prev.camType != s1.camType || prev.camModel != s1.camModel) then
    (s1, FacadeEv.stopEv :: startCameraStreamEv s1)
  else (s1, [])

/-- Run consecutive reconnection poll cycles, concatenating the stream
calls they perform. -/
def pollCycles (s : CamFacade) : List (Option Detection) → CamFacade × List FacadeEv
  | [] => (s, [])
  | det :: rest =>
    let r := checkCameraReconnection s det
    let r2 := pollCycles r.1 rest
    (r2.1, r.2 ++ r2.2)

/-- Predicate picking out stream-stop calls. -/
def isStopEv : FacadeEv → Bool
  | FacadeEv.stopEv => true
  | _ => false

/-- Predicate picking out stream-start calls. -/
def isStartEv : FacadeEv → Bool
  | FacadeEv.startEv _ _ _ => true
  | _ => false

/-! ## Device verification

Embedding of `src/server/services/camera/device-manager.service.js`
(`verifyDevice`, lines 181–275).  The surrounding filesystem and the
`v4l2-ctl` introspection subprocess are the environment; `statSync`
throwing (e.g. the node vanished between the checks) is `statRes = none`.
`Except.error` marks a JavaScript exception escaping the probed step;
the outer `try`/`catch` of the source converts any such exception into a
`false` return, and the logging-only bookkeeping (`verifiedDevices`,
`detectCanonR6`) does not affect the returned value and is omitted. -/

/-- Outcome of the `spawn('v4l2-ctl', ...)` probe: a synchronous throw of
`spawn` (caught, line 266–269), the `error` event (line 263–265), or the
`close` event with exit code and the collected stdout/stderr text. -/
inductive VerifySpawn
  | spawnThrow
  | errEvent
  | close (code : Int) (stdout stderr : String)
  deriving DecidableEq, Repr

/-- Environment of one `verifyDevice` call. -/
structure VerifyEnv where
  platformLinux : Bool
  pathExists : Bool
  statRes : Option Bool
  spawnRes : VerifySpawn
  deriving DecidableEq, Repr

/-- The body guarded by the outer `try` (lines 196–270). -/
def verifyDeviceBody (env : VerifyEnv) : Except String Bool :=
  if !env.pathExists then Except.ok false
  else
    match env.statRes with
    | none => Except.error "statSync failed"
    | some isChar =>
      if !isChar then Except.ok false
      else
        match env.spawnRes with
        | VerifySpawn.spawnThrow => Except.ok false
        | VerifySpawn.errEvent => Except.ok false
        | VerifySpawn.close code out err =>
          if code == 0 && !(strContains err "failed") && !(strContains err "error") then
            if strContains out "Video Capture" || strContains out "Video Output" then
              Except.ok true
            else Except.ok false
          else Except.ok false

/-- `verifyDevice` (lines 181–275): non-Linux platforms short-circuit to
`true` (lines 183–185); on Linux the body runs under the outer
`try`/`catch`, which converts an escaping exception into `false`. -/
def verifyDevice (env : VerifyEnv) : Except String Bool :=
  if !env.platformLinux then Except.ok true
  else
    match verifyDeviceBody env with
    | Except.ok b => Except.ok b
    | Except.error _ => Except.ok false

end Photobooth

namespace Photobooth

/-! ## Theorems for the capture admission guard (claim C4) -/

/-- **C4 (counterexample).**  The claim states that a new capture request
is accepted only after the 5-second cooldown has elapsed since the
previous *completed* capture.  The code measures the cooldown from the
timestamp at which the previous request was *accepted*
(`lastCaptureAttempt = now` runs before the capture starts), not from its
completion.  Concrete run: a capture accepted at t=100000 completes at
t=104000; a request at t=105000 — only 1000 ms after the completion,
less than the 5000 ms cooldown — is nevertheless accepted. -/
theorem capture_cooldown_counterexample :
    (capRun [CapEv.request 100000, CapEv.complete 104000, CapEv.request 105000]).2
      = [(100000, CapResp.accepted), (105000, CapResp.accepted)]
    ∧ 105000 - 104000 < CAPTURE_COOLDOWN_MS := by
  exact ⟨rfl, by decide⟩

/-- **C4 (amended).**  Only one capture attempt may be in flight: a
request arriving while `activeCaptureOperations` has reached the maximum
(1) is rejected immediately with a retryable 429 signal, leaves the guard
state unchanged and does not start a capture.  A request is *accepted*
only when no capture operation is active and at least
`CAPTURE_COOLDOWN_MS` (5 seconds) have elapsed since the previous capture
request was accepted (the cooldown is measured from the acceptance
timestamp of the previous attempt, not from its completion). -/
theorem capture_admission_guard :
    (∀ (s : CapCtrl) (now : Nat), MAX_CAPTURE_OPERATIONS ≤ s.active →
        capRequest s now = (s, CapResp.rejectedBusy)) ∧
    (∀ (s : CapCtrl) (now : Nat) (s2 : CapCtrl),
        capRequest s now = (s2, CapResp.accepted) →
        s.active = 0 ∧ CAPTURE_COOLDOWN_MS ≤ now - s.lastAttempt ∧
        s2 = { active := s.active + 1, lastAttempt := now }) := by
  constructor
  · intro s now h
    simp [capRequest, if_pos h]
  · intro s now s2 h
    unfold capRequest at h
    split_ifs at h with h1 h2
    · exact absurd (congrArg Prod.snd h) (by simp)
    · exact absurd (congrArg Prod.snd h) (by simp)
    · refine ⟨Nat.lt_one_iff.mp (Nat.lt_of_not_le h1), Nat.le_of_not_lt h2, ?_⟩
      exact (congrArg Prod.fst h).symm

/-- Witness for C4: the amended theorem applied at concrete states — a
busy guard (`active = 1`) rejects a request at t=7777, and the pristine
guard accepts a request at t=6000 recording the new state. -/
theorem capture_admission_guard_witness :
    capRequest ⟨1, 0⟩ 7777 = (⟨1, 0⟩, CapResp.rejectedBusy) ∧
    ((⟨0, 0⟩ : CapCtrl).active = 0 ∧
      CAPTURE_COOLDOWN_MS ≤ 6000 - (⟨0, 0⟩ : CapCtrl).lastAttempt ∧
      (⟨1, 6000⟩ : CapCtrl) = ⟨(⟨0, 0⟩ : CapCtrl).active + 1, 6000⟩) :=
  ⟨capture_admission_guard.1 ⟨1, 0⟩ 7777 (by decide),
   capture_admission_guard.2 ⟨0, 0⟩ 6000 ⟨1, 6000⟩ (by decide)⟩

/-! ## Theorems for the restart admission guard (claim C5) -/

/-- **C5.**  Restart rate-limiting and concurrency guard
(camera.controller.js lines 386–413): (1) while a restart is in progress
any further restart request is rejected with a retryable 429 signal and
the state is unchanged (no queued duplicate); (2) when three accepted
restarts lie inside the 10-second cooldown window of an incoming request,
that request — the (N+1)th inside the window for N = 3 — is rejected with
a retryable 429 signal and no restart procedure is started; (3) concrete
run: restarts accepted at t=1000, 2000, 3000 (each completing before the
next), then the fourth request at t=4000 is rejected. -/
theorem restart_rate_limit :
    (∀ (s : RestartCtrl) (now : Nat), s.inProgress = true →
        restartRequest s now = (s, RestartResp.rejectedInProgress)) ∧
    (∀ (s : RestartCtrl) (now : Nat), s.inProgress = false →
        MAX_RECENT_RESTARTS ≤
          (s.recent.filter (fun t => now - t < RESTART_COOLDOWN_PERIOD)).length →
        (restartRequest s now).2 = RestartResp.rejectedTooMany ∧
        (restartRequest s now).1.inProgress = false) ∧
    (restartRun [RestartEv.request 1000, RestartEv.complete,
        RestartEv.request 2000, RestartEv.complete,
        RestartEv.request 3000, RestartEv.complete,
        RestartEv.request 4000]).2
      = [RestartResp.accepted, RestartResp.accepted, RestartResp.accepted,
         RestartResp.rejectedTooMany] := by
  refine ⟨?_, ?_, by decide⟩
  · intro s now h
    simp [restartRequest, h]
  · intro s now h1 h2
    simp [restartRequest, h1, if_pos h2]

/-! ## Theorems for the stream supervisor (claims C3 and C9) -/

/-- The supervisor invariant is preserved by every supervisor call that
does not route through the 5D branch. -/
theorem streamInv_step (s : StreamSvc) (op : StreamOp) (hop : opTakes5D op = false)
    (h : StreamInv s) : StreamInv (streamStep s op) := by
  cases op with
  | start env dp ct cm =>
    cases hm : s.mjpegProcess with
    | some hd =>
      cases hd with
      | proc p =>
        have hl : s.live = [p] := by simpa [StreamInv, hm] using h
        simpa [streamStep, startStream, hm, StreamInv] using hl
      | promise => simp [StreamInv, hm] at h
    | none =>
      have hl : s.live = [] := by simpa [StreamInv, hm] using h
      cases hdp : (dp == "") with
      | true => simpa [streamStep, startStream, hm, hdp, StreamInv] using hl
      | false =>
        cases hr6 : isCanonR6Check ct cm dp with
        | true =>
          cases hok : env.r6Ok <;>
            simp [streamStep, startStream, hm, hdp, hr6, hok, spawnRecord,
              StreamSvc.spawn, StreamInv, hl]
        | false =>
          have h5 : is5DStreamCheck cm = false := by
            simpa [opTakes5D, hdp, hr6] using hop
          cases hstd : env.stdOk <;>
            simp [streamStep, startStream, hm, hdp, hr6, h5, hstd, spawnRecord,
              StreamSvc.spawn, StreamInv, hl]
  | stop =>
    cases hm : s.mjpegProcess with
    | some hd =>
      cases hd with
      | proc p =>
        have hl : s.live = [p] := by simpa [StreamInv, hm] using h
        simp [streamStep, stopStream, killRecorded, hm, hl, StreamInv]
      | promise => simp [StreamInv, hm] at h
    | none =>
      have hl : s.live = [] := by simpa [StreamInv, hm] using h
      simp [streamStep, stopStream, killRecorded, hm, hl, StreamInv]

/-- The invariant holds after any call sequence from the constructor
state in which no call routes through the 5D branch. -/
theorem streamInv_run (ops : List StreamOp)
    (hops : ops.all (fun op => !opTakes5D op) = true) :
    StreamInv (runStreamOps ops) := by
  have key : ∀ (l : List StreamOp) (s : StreamSvc),
      l.all (fun op => !opTakes5D op) = true →
      StreamInv s → StreamInv (l.foldl streamStep s) := by
    intro l
    induction l with
    | nil => intro s _ h; exact h
    | cons op l ih =>
      intro s hall h
      rw [List.all_cons, Bool.and_eq_true] at hall
      have h1 : opTakes5D op = false := by simpa using hall.1
      exact ih _ hall.2 (streamInv_step s op h1 h)
  have hinit : StreamInv StreamSvc.init := by simp [StreamInv, StreamSvc.init]
  exact key ops StreamSvc.init hops hinit

/-- **C3 (counterexample).**  The claim asserts that after any sequence
of `startStream`/`stopStream` calls at most one live subprocess remains.
The 5D branch refutes it: `startStream` for a 5D model records the
`async` setup's Promise instead of the child process
(camera-stream.service.js line 110), `stopStream`'s signalling is
guarded by `if (this.mjpegProcess.kill)` (line 163), which a Promise
fails, so the 5D stream subprocess is never signalled.  Concretely:
start(5D) leaves one live subprocess behind a recorded Promise; stop
clears the fields but kills nothing (one live subprocess, no recorded
handle); a second start(5D) spawns again — two live stream subprocesses
after a start/stop/start sequence. -/
theorem stream_single_handle_counterexample :
    (runStreamOps [StreamOp.start ⟨true, true, true⟩ "/dev/video0" "canon" "5D Mark IV",
        StreamOp.stop]).mjpegProcess = none ∧
    (runStreamOps [StreamOp.start ⟨true, true, true⟩ "/dev/video0" "canon" "5D Mark IV",
        StreamOp.stop]).live = [0] ∧
    (runStreamOps [StreamOp.start ⟨true, true, true⟩ "/dev/video0" "canon" "5D Mark IV",
        StreamOp.stop,
        StreamOp.start ⟨true, true, true⟩ "/dev/video0" "canon" "5D Mark IV"]).live.length
      = 2 := by
  decide

/-- **C3 (amended).**  `startStream` called while a stream value is
already recorded — child process or Promise — is a no-op that returns
the existing handle, changes no state and spawns no new subprocess
(camera-stream.service.js lines 37–43); and after any sequence of
`startStream`/`stopStream` calls in which no start routes through the
specialized 5D branch, at most one live subprocess exists.  (The 5D
branch breaks the latter: it records the setup's Promise, which
`stopStream` cannot kill — see the counterexample.) -/
theorem stream_single_handle_amended :
    (∀ ops : List StreamOp, ops.all (fun op => !opTakes5D op) = true →
        (runStreamOps ops).live.length ≤ 1) ∧
    (∀ (s : StreamSvc) (env : StartEnv) (dp ct cm : String) (hd : Handle),
        s.mjpegProcess = some hd →
        startStream env dp ct cm s = (s, (some hd, s.mjpegUrl))) := by
  constructor
  · intro ops hops
    have hinv := streamInv_run ops hops
    cases hm : (runStreamOps ops).mjpegProcess with
    | none =>
      have hl : (runStreamOps ops).live = [] := by simpa [StreamInv, hm] using hinv
      simp [hl]
    | some hd =>
      cases hd with
      | proc p =>
        have hl : (runStreamOps ops).live = [p] := by simpa [StreamInv, hm] using hinv
        simp [hl]
      | promise => simp [StreamInv, hm] at hinv
  · intro s env dp ct cm hd hm
    simp [startStream, hm]

/-- Witness for C3 (amended): a webcam start-then-stop run keeps at most
one live subprocess, and a `startStream` call against a busy supervisor
(recorded child process 7) is a no-op returning the existing handle. -/
theorem stream_single_handle_amended_witness :
    (runStreamOps [StreamOp.start ⟨false, false, true⟩ "/dev/video0" "webcam" "USB Webcam",
        StreamOp.stop]).live.length ≤ 1 ∧
    startStream ⟨true, true, true⟩ "/dev/video2" "canon" "R6"
        ⟨some (Handle.proc 7), some "/api/camera/mjpeg-stream", 8, [7]⟩
      = (⟨some (Handle.proc 7), some "/api/camera/mjpeg-stream", 8, [7]⟩,
         (some (Handle.proc 7), some "/api/camera/mjpeg-stream")) :=
  ⟨stream_single_handle_amended.1 _ (by decide),
   stream_single_handle_amended.2
     ⟨some (Handle.proc 7), some "/api/camera/mjpeg-stream", 8, [7]⟩
     ⟨true, true, true⟩ "/dev/video2" "canon" "R6" (Handle.proc 7) rfl⟩

/-- **C9.**  Whenever a stderr chunk of the preview subprocess contains
one of the fixed case-sensitive device-error patterns
(`"No such device"`, `"Device or resource busy"`), the handler of
stream/r6-stream.js lines 277–318 immediately sends SIGTERM to the
subprocess and the `onStreamEnd` callback nulls the recorded process and
URL references, without waiting for process exit.  The matching is
case-sensitive: the same text in upper case triggers nothing. -/
theorem watchdog_terminates_and_invalidates :
    (∀ (s : StreamSvc) (chunk : String),
        strContains chunk "No such device" = true ∨
        strContains chunk "Device or resource busy" = true →
        (onStderrChunk s chunk).2 = true ∧
        (onStderrChunk s chunk).1.mjpegProcess = none ∧
        (onStderrChunk s chunk).1.mjpegUrl = none) ∧
    (∀ s : StreamSvc, onStderrChunk s "NO SUCH DEVICE" = (s, false)) := by
  constructor
  · intro s chunk h
    have hc : (strContains chunk "No such device" ||
        strContains chunk "Device or resource busy") = true := by
      rcases h with h | h <;> simp [h]
    simp [onStderrChunk, hc, killRecorded]
  · intro s
    rfl

/-- Witness for C9: a chunk of real `ffmpeg` diagnostic text containing
`"No such device"` makes the handler send SIGTERM and null both handle
fields of a running supervisor. -/
theorem watchdog_witness :
    (onStderrChunk ⟨some (Handle.proc 3), some "/api/camera/mjpeg-stream", 4, [3]⟩
        "/dev/video2: No such device").2 = true ∧
    (onStderrChunk ⟨some (Handle.proc 3), some "/api/camera/mjpeg-stream", 4, [3]⟩
        "/dev/video2: No such device").1.mjpegProcess = none ∧
    (onStderrChunk ⟨some (Handle.proc 3), some "/api/camera/mjpeg-stream", 4, [3]⟩
        "/dev/video2: No such device").1.mjpegUrl = none :=
  watchdog_terminates_and_invalidates.1
    ⟨some (Handle.proc 3), some "/api/camera/mjpeg-stream", 4, [3]⟩
    "/dev/video2: No such device" (Or.inl rfl)

/-! ## Theorems for the standard capture method (claims C8 and C10) -/

/-- Helper: the full action trace of a standard-capture invocation with a
streamer and a non-empty device path, for every subprocess outcome. -/
theorem captureV4L2Photo_events (env : V4l2Env) (dp : String) (h : dp ≠ "") :
    (captureV4L2Photo env dp true).events =
      [CaptureEvent.stopPreview, CaptureEvent.settleDelay 500,
       CaptureEvent.spawnCapture (selectCaptureDevice env dp),
       CaptureEvent.restartPreview (selectCaptureDevice env dp) "canon" "Canon Camera"] := by
  have hb : (dp == "") = false := by simpa using h
  cases ho : env.outcome <;> simp [captureV4L2Photo, hb, ho]

/-- Helper: with a non-empty device path the capture promise always
resolves (never rejects). -/
theorem captureV4L2Photo_result_ok (env : V4l2Env) (dp : String) (hs : Bool) (h : dp ≠ "") :
    ∃ b, (captureV4L2Photo env dp hs).result = Except.ok b := by
  have hb : (dp == "") = false := by simpa using h
  cases ho : env.outcome with
  | close code => exact ⟨(code == 0), by simp [captureV4L2Photo, hb, ho]⟩
  | errEvent => exact ⟨false, by simp [captureV4L2Photo, hb, ho]⟩

/-- Helper: a failed subprocess (non-zero exit or launch failure) makes
the capture promise resolve `false`. -/
theorem captureV4L2Photo_result_failed (env : V4l2Env) (dp : String) (hs : Bool)
    (h : dp ≠ "") (hf : v4l2Failed env = true) :
    (captureV4L2Photo env dp hs).result = Except.ok false := by
  have hb : (dp == "") = false := by simpa using h
  cases ho : env.outcome with
  | close code =>
    have hc : (code == 0) = false := by simpa [v4l2Failed, ho] using hf
    simp [captureV4L2Photo, hb, ho, hc]
  | errEvent => simp [captureV4L2Photo, hb, ho]

/-- **C8.**  Within the standard capture method the preview stream is
stopped and a 500 ms settle delay waited before the capture subprocess is
launched, and the preview-stream restart step runs afterwards
unconditionally — for every subprocess outcome, including a non-zero exit
code (`close` with `code ≠ 0`) and a failure to launch (the `error`
event): the action trace is always stop, delay, spawn, restart. -/
theorem standard_capture_stream_discipline :
    ∀ (env : V4l2Env) (dp : String), dp ≠ "" →
      (captureV4L2Photo env dp true).events =
        [CaptureEvent.stopPreview, CaptureEvent.settleDelay 500,
         CaptureEvent.spawnCapture (selectCaptureDevice env dp),
         CaptureEvent.restartPreview (selectCaptureDevice env dp) "canon" "Canon Camera"] :=
  fun env dp h => captureV4L2Photo_events env dp h

/-- Witness for C8: a concrete invocation against `/dev/video0` whose
`ffmpeg` subprocess exits with code 1 still produces the full
stop–delay–spawn–restart trace. -/
theorem standard_capture_stream_discipline_witness :
    (captureV4L2Photo ⟨fun _ => none, fun _ => false, [], FfmpegOutcome.close 1, false⟩
        "/dev/video0" true).events =
      [CaptureEvent.stopPreview, CaptureEvent.settleDelay 500,
       CaptureEvent.spawnCapture (selectCaptureDevice
         ⟨fun _ => none, fun _ => false, [], FfmpegOutcome.close 1, false⟩ "/dev/video0"),
       CaptureEvent.restartPreview (selectCaptureDevice
         ⟨fun _ => none, fun _ => false, [], FfmpegOutcome.close 1, false⟩ "/dev/video0")
         "canon" "Canon Camera"] :=
  standard_capture_stream_discipline
    ⟨fun _ => none, fun _ => false, [], FfmpegOutcome.close 1, false⟩ "/dev/video0"
    (by decide)

/-- **C10.**  After every standard-method capture attempt — whatever the
subprocess outcome — the preview-stream restart is invoked exactly once,
with hardcoded camera type `'canon'` and model `'Canon Camera'` and
against the (possibly substituted) capture device selected during the
attempt; hence for any bound identity other than
`('canon', 'Canon Camera')` the restarted stream no longer carries the
previously bound camera type and model. -/
theorem standard_capture_restart_hardcoded_identity :
    ∀ (env : V4l2Env) (dp boundType boundModel : String), dp ≠ "" →
      (boundType, boundModel) ≠ ("canon", "Canon Camera") →
      restartCalls (captureV4L2Photo env dp true).events =
        [(selectCaptureDevice env dp, "canon", "Canon Camera")] ∧
      ∀ d t m, (d, t, m) ∈ restartCalls (captureV4L2Photo env dp true).events →
        (t, m) ≠ (boundType, boundModel) := by
  intro env dp bt bm h hne
  rw [captureV4L2Photo_events env dp h]
  refine ⟨rfl, ?_⟩
  intro d t m hm
  simp [restartCalls] at hm
  obtain ⟨-, ht, hm2⟩ := hm
  subst ht
  subst hm2
  intro hc
  exact hne hc.symm

/-- Witness for C10: a concrete attempt bound to a webcam identity
(`'webcam'`, `'USB Webcam'`) restarts the stream as
`('canon', 'Canon Camera')`, not as the bound identity. -/
theorem standard_capture_restart_hardcoded_identity_witness :
    restartCalls (captureV4L2Photo
        ⟨fun _ => none, fun _ => false, [], FfmpegOutcome.errEvent, false⟩
        "/dev/video3" true).events =
      [(selectCaptureDevice
          ⟨fun _ => none, fun _ => false, [], FfmpegOutcome.errEvent, false⟩ "/dev/video3",
        "canon", "Canon Camera")] ∧
    ∀ d t m, (d, t, m) ∈ restartCalls (captureV4L2Photo
        ⟨fun _ => none, fun _ => false, [], FfmpegOutcome.errEvent, false⟩
        "/dev/video3" true).events →
      (t, m) ≠ ("webcam", "USB Webcam") :=
  standard_capture_restart_hardcoded_identity
    ⟨fun _ => none, fun _ => false, [], FfmpegOutcome.errEvent, false⟩
    "/dev/video3" "webcam" "USB Webcam" (by decide) (by decide)

/-! ## Theorems for the capture fallback chain (claims C1 and C2) -/

/-- Helper: the final check turns file existence into the success result
carrying the computed path, and absence into the failure result. -/
theorem chainFinish_success_iff (env : ChainEnv) (fb : Bool) :
    (∃ p f, (chainFinish env fb).result = CaptureResult.success p f) ↔
      (chainFinish env fb).fileExists = true := by
  cases fb <;> simp [chainFinish]

/-- **C2.**  For every capture request that reaches the chain (the facade
only forwards requests with a non-empty bound device path), `capturePhoto`
returns a success result if and only if a file exists at the computed
output path after the fallback chain has run — independently of the
success/failure values the individual methods reported: no file means a
failure result even when a method reported success, and a file means a
success result even when every method reported failure. -/
theorem capture_success_iff_file :
    ∀ env : ChainEnv, env.devicePath ≠ "" →
      ((∃ p f, (capturePhotoChain env).result = CaptureResult.success p f) ↔
        (capturePhotoChain env).fileExists = true) := by
  intro env h
  obtain ⟨b, hb⟩ := captureV4L2Photo_result_ok env.v4l2 env.devicePath true h
  simp only [capturePhotoChain, hb]
  split_ifs <;> exact chainFinish_success_iff env _

/-- Witness for C2: a concrete request whose standard method exits 0
without writing a file — the result is a failure because no file exists,
despite the reported success. -/
theorem capture_success_iff_file_witness :
    (∃ p f, (capturePhotoChain
        ⟨"/app", "2025-01-01T00:00:00.000Z", "u1", "webcam", "USB Webcam", "/dev/video0",
          ⟨MethodOut.fail, false⟩, ⟨MethodOut.fail, false⟩,
          ⟨fun _ => none, fun _ => false, [], FfmpegOutcome.close 0, false⟩,
          false, false, false⟩).result = CaptureResult.success p f) ↔
      (capturePhotoChain
        ⟨"/app", "2025-01-01T00:00:00.000Z", "u1", "webcam", "USB Webcam", "/dev/video0",
          ⟨MethodOut.fail, false⟩, ⟨MethodOut.fail, false⟩,
          ⟨fun _ => none, fun _ => false, [], FfmpegOutcome.close 0, false⟩,
          false, false, false⟩).fileExists = true :=
  capture_success_iff_file
    ⟨"/app", "2025-01-01T00:00:00.000Z", "u1", "webcam", "USB Webcam", "/dev/video0",
      ⟨MethodOut.fail, false⟩, ⟨MethodOut.fail, false⟩,
      ⟨fun _ => none, fun _ => false, [], FfmpegOutcome.close 0, false⟩,
      false, false, false⟩ (by decide)

/-- **C1.**  For every capture request that reaches the chain in which
the model-specialized, standard, and fallback methods all fail, if the
bundled placeholder asset exists then the mock method copies it to the
computed output path and `capturePhoto` returns the success result
carrying that path — no hard failure as long as the placeholder asset
exists. -/
theorem mock_liveness :
    ∀ env : ChainEnv, env.devicePath ≠ "" →
      env.r6run.out ≠ MethodOut.ok → env.mk5run.out ≠ MethodOut.ok →
      v4l2Failed env.v4l2 = true → env.fbSucc = false → env.mockExists = true →
      capturePhotoChain env =
        { result := CaptureResult.success (chainLocalPath env) (chainFilename env),
          fileExists := true } := by
  intro env h hr h5 hv hf hm
  have hres := captureV4L2Photo_result_failed env.v4l2 env.devicePath true h hv
  have hr6 : (env.r6run.out == MethodOut.ok) = false := by
    simpa using hr
  have h5d : (env.mk5run.out == MethodOut.ok) = false := by
    simpa using h5
  by_cases hR6 : isCanonR6Check env.cameraType env.cameraModel env.devicePath <;>
    by_cases h5D : isCanon5DCaptureCheck env.cameraModel <;>
      simp [capturePhotoChain, hres, hr6, h5d, hf, hm, hR6, h5D, chainFinish]

/-- Witness for C1: a concrete Canon R6 request whose specialized method
fails, whose standard `ffmpeg` run exits 1, and whose fallback fails —
with the placeholder present the chain returns the success result at the
computed output path. -/
theorem mock_liveness_witness :
    capturePhotoChain
        ⟨"/app", "2025-01-01T00:00:00.000Z", "u1", "canon", "R6", "/dev/video0",
          ⟨MethodOut.fail, false⟩, ⟨MethodOut.thrown, false⟩,
          ⟨fun _ => none, fun _ => false, [], FfmpegOutcome.close 1, false⟩,
          false, false, true⟩ =
      { result := CaptureResult.success
          (chainLocalPath
            ⟨"/app", "2025-01-01T00:00:00.000Z", "u1", "canon", "R6", "/dev/video0",
              ⟨MethodOut.fail, false⟩, ⟨MethodOut.thrown, false⟩,
              ⟨fun _ => none, fun _ => false, [], FfmpegOutcome.close 1, false⟩,
              false, false, true⟩)
          (chainFilename
            ⟨"/app", "2025-01-01T00:00:00.000Z", "u1", "canon", "R6", "/dev/video0",
              ⟨MethodOut.fail, false⟩, ⟨MethodOut.thrown, false⟩,
              ⟨fun _ => none, fun _ => false, [], FfmpegOutcome.close 1, false⟩,
              false, false, true⟩),
        fileExists := true } :=
  mock_liveness
    ⟨"/app", "2025-01-01T00:00:00.000Z", "u1", "canon", "R6", "/dev/video0",
      ⟨MethodOut.fail, false⟩, ⟨MethodOut.thrown, false⟩,
      ⟨fun _ => none, fun _ => false, [], FfmpegOutcome.close 1, false⟩,
      false, false, true⟩
    (by decide) (by decide) (by decide) (by decide) rfl rfl

/-! ## Theorems for reconnection polling (claim C6) -/

/-- **C6.**  Across three consecutive poll cycles observing
connected, then disconnected, then connected with a different device
path, the preview stream is stopped exactly once and restarted exactly
twice, each restart bound to the camera identity (device path, type,
model) in effect at that poll cycle. -/
theorem reconnection_stop_once_start_twice :
    ∀ (d1 t1 m1 d2 t2 m2 : String), d1 ≠ d2 →
      (pollCycles CamFacade.init
          [some ⟨d1, t1, m1⟩, none, some ⟨d2, t2, m2⟩]).2 =
        [FacadeEv.startEv d1 (some t1) (some m1), FacadeEv.stopEv,
         FacadeEv.startEv d2 (some t2) (some m2)] ∧
      ((pollCycles CamFacade.init
          [some ⟨d1, t1, m1⟩, none, some ⟨d2, t2, m2⟩]).2.filter isStopEv).length = 1 ∧
      ((pollCycles CamFacade.init
          [some ⟨d1, t1, m1⟩, none, some ⟨d2, t2, m2⟩]).2.filter isStartEv).length = 2 := by
  intro d1 t1 m1 d2 t2 m2 hne
  have hmain : (pollCycles CamFacade.init
      [some ⟨d1, t1, m1⟩, none, some ⟨d2, t2, m2⟩]).2 =
      [FacadeEv.startEv d1 (some t1) (some m1), FacadeEv.stopEv,
       FacadeEv.startEv d2 (some t2) (some m2)] := by
    simp [pollCycles, checkCameraReconnection, checkCameraAvailability,
      startCameraStreamEv, CamFacade.init]
  refine ⟨hmain, ?_, ?_⟩ <;> rw [hmain] <;> simp [isStopEv, isStartEv]

/-- Witness for C6: the scenario at concrete identities — a Canon R6 on
`/dev/video1` disappearing and returning on `/dev/video2`. -/
theorem reconnection_stop_once_start_twice_witness :
    (pollCycles CamFacade.init
        [some ⟨"/dev/video1", "canon", "R6"⟩, none,
         some ⟨"/dev/video2", "canon", "R6"⟩]).2 =
      [FacadeEv.startEv "/dev/video1" (some "canon") (some "R6"), FacadeEv.stopEv,
       FacadeEv.startEv "/dev/video2" (some "canon") (some "R6")] ∧
    ((pollCycles CamFacade.init
        [some ⟨"/dev/video1", "canon", "R6"⟩, none,
         some ⟨"/dev/video2", "canon", "R6"⟩]).2.filter isStopEv).length = 1 ∧
    ((pollCycles CamFacade.init
        [some ⟨"/dev/video1", "canon", "R6"⟩, none,
         some ⟨"/dev/video2", "canon", "R6"⟩]).2.filter isStartEv).length = 2 :=
  reconnection_stop_once_start_twice "/dev/video1" "canon" "R6" "/dev/video2" "canon" "R6"
    (by decide)

/-! ## Theorems for device verification (claim C7) -/

/-- **C7.**  `verifyDevice` never lets an exception escape (its result is
always a normal Boolean return), and on the Linux host it returns `false`
when the path does not exist, when the introspection subprocess fails to
launch (`error` event), and when the introspection run fails — non-zero
exit code, or error output on stderr (the source's error markers
`'failed'`/`'error'` in the collected stderr text). -/
theorem verifyDevice_never_throws :
    (∀ env : VerifyEnv, ∃ b, verifyDevice env = Except.ok b) ∧
    (∀ env : VerifyEnv, env.platformLinux = true → env.pathExists = false →
        verifyDevice env = Except.ok false) ∧
    (∀ env : VerifyEnv, env.platformLinux = true →
        env.spawnRes = VerifySpawn.errEvent → verifyDevice env = Except.ok false) ∧
    (∀ (env : VerifyEnv) (code : Int) (out err : String), env.platformLinux = true →
        env.spawnRes = VerifySpawn.close code out err →
        (¬ code = 0 ∨ strContains err "failed" = true ∨ strContains err "error" = true) →
        verifyDevice env = Except.ok false) := by
  refine ⟨?_, ?_, ?_, ?_⟩
  · intro env
    unfold verifyDevice
    by_cases hp : env.platformLinux
    · cases hbody : verifyDeviceBody env with
      | ok b => exact ⟨b, by simp [hp, hbody]⟩
      | error e => exact ⟨false, by simp [hp, hbody]⟩
    · exact ⟨true, by simp [hp]⟩
  · intro env h1 h2
    simp [verifyDevice, verifyDeviceBody, h1, h2]
  · intro env h1 h2
    cases hpe : env.pathExists with
    | false => simp [verifyDevice, verifyDeviceBody, h1, hpe]
    | true =>
      cases hs : env.statRes with
      | none => simp [verifyDevice, verifyDeviceBody, h1, hpe, hs]
      | some c =>
        cases c <;> simp [verifyDevice, verifyDeviceBody, h1, hpe, hs, h2]
  · intro env code out err h1 h2 h3
    have hcond : (code == 0 && !(strContains err "failed") &&
        !(strContains err "error")) = false := by
      rcases h3 with h | h | h
      · simp [beq_eq_false_iff_ne.mpr h]
      · simp [h]
      · simp [h]
    cases hpe : env.pathExists with
    | false => simp [verifyDevice, verifyDeviceBody, h1, hpe]
    | true =>
      cases hs : env.statRes with
      | none => simp [verifyDevice, verifyDeviceBody, h1, hpe, hs]
      | some c =>
        cases c <;> simp [verifyDevice, verifyDeviceBody, h1, hpe, hs, h2, hcond]

/-- Witness for C7: concrete environments — a healthy probe returns some
Boolean; a missing path, a launch failure, and a non-zero exit each
return `false`. -/
theorem verifyDevice_never_throws_witness :
    (∃ b, verifyDevice ⟨true, true, some true, VerifySpawn.close 0 "Video Capture" ""⟩
        = Except.ok b) ∧
    verifyDevice ⟨true, false, none, VerifySpawn.errEvent⟩ = Except.ok false ∧
    verifyDevice ⟨true, true, some true, VerifySpawn.errEvent⟩ = Except.ok false ∧
    verifyDevice ⟨true, true, some true, VerifySpawn.close 1 "Video Capture" ""⟩
        = Except.ok false :=
  ⟨verifyDevice_never_throws.1 ⟨true, true, some true, VerifySpawn.close 0 "Video Capture" ""⟩,
   verifyDevice_never_throws.2.1 ⟨true, false, none, VerifySpawn.errEvent⟩ rfl rfl,
   verifyDevice_never_throws.2.2.1 ⟨true, true, some true, VerifySpawn.errEvent⟩ rfl rfl,
   verifyDevice_never_throws.2.2.2 ⟨true, true, some true, VerifySpawn.close 1 "Video Capture" ""⟩
     1 "Video Capture" "" rfl rfl (Or.inl (by decide))⟩

/-- Witness for C5: the theorem applied at concrete states — an
in-progress guard rejects a request at t=5, and a guard holding three
accepted restarts at t=1000, 2000, 3000 rejects a fourth request at
t=4000 without starting it. -/
theorem restart_rate_limit_witness :
    restartRequest ⟨true, []⟩ 5 = (⟨true, []⟩, RestartResp.rejectedInProgress) ∧
    ((restartRequest ⟨false, [1000, 2000, 3000]⟩ 4000).2 = RestartResp.rejectedTooMany ∧
      (restartRequest ⟨false, [1000, 2000, 3000]⟩ 4000).1.inProgress = false) :=
  ⟨restart_rate_limit.1 ⟨true, []⟩ 5 rfl,
   restart_rate_limit.2.1 ⟨false, [1000, 2000, 3000]⟩ 4000 rfl (by decide)⟩

end Photobooth
